import Mathlib

/-!
Verification of the EffortPlot aggregation/filtering pipeline (app.py).

The program is a pandas dashboard.  We embed its data pipeline shallowly:
a DataFrame is a `List` of record structures (order = row order), integer
cells are `ℤ`, ratios are exact rationals, and every pandas operation used by the program
(boolean-mask filtering, column sums, groupby/agg, zero-division in
float division, `sort_values`, `head`, `str.contains`) is translated to a
Lean counterpart whose semantics is documented at its definition site.
-/

namespace EffortPlot

/-- Statistic columns offered by the app (app.py line 111, `available_stats`). -/
inductive Stat
  | runs
  | kickPressures
  | kicksDefused
  | supports
  | decoys
  | tackles
deriving DecidableEq

/-- One row of the enriched dataframe `df` after the team-name mapping has
succeeded (app.py lines 20-44): the per-round record of one player.  `teamName`
is a plain string here; the separate load model below (`teamColumn`,
`pySortedTeamOptions`) covers rows whose `teamId` is not in the mapping. -/
structure Record where
  playerName : String
  teamName : String
  positionName : String
  roundNumber : Int
  mins : ℤ
  runs : ℤ
  kickPressures : ℤ
  kicksDefused : ℤ
  supports : ℤ
  decoys : ℤ
  tackles : ℤ
deriving DecidableEq

/-- Column lookup: the value of one statistic column in a row. -/
def Record.stat (r : Record) : Stat → ℤ
  | .runs => r.runs
  | .kickPressures => r.kickPressures
  | .kicksDefused => r.kicksDefused
  | .supports => r.supports
  | .decoys => r.decoys
  | .tackles => r.tackles

/-- Replace the value of one statistic column of a row (used to state that
unselected columns do not influence `efforts`). -/
def setStat (r : Record) : Stat → ℤ → Record
  | .runs, v => { r with runs := v }
  | .kickPressures, v => { r with kickPressures := v }
  | .kicksDefused, v => { r with kicksDefused := v }
  | .supports, v => { r with supports := v }
  | .decoys, v => { r with decoys := v }
  | .tackles, v => { r with tackles := v }

/-- The `available_stats` list of app.py line 111, in source order. -/
def availableStats : List Stat :=
  [.runs, .kickPressures, .kicksDefused, .supports, .decoys, .tackles]

/-- The three sidebar multiselect states (app.py lines 65, 79, 99):
empty list = nothing selected. -/
structure FilterSelection where
  positions : List String
  teams : List String
  players : List String

/-- The option list `all_positions` (app.py line 63, `sorted(unique(...))`).
`dedup` keeps one copy of each value; the sorting Python applies only changes
the display order of the options and none of the properties proved here
depend on that order, only on membership. -/
def allPositions (df : List Record) : List String :=
  (df.map Record.positionName).dedup

/-- The option list `all_teams` (app.py line 77), same remark as
`allPositions`. -/
def allTeams (df : List Record) : List String :=
  (df.map Record.teamName).dedup

/-- Lines 73-74: an empty position selection is replaced by all positions. -/
def effPositions (df : List Record) (fs : FilterSelection) : List String :=
  if fs.positions = [] then allPositions df else fs.positions

/-- Lines 87-88: an empty team selection is replaced by all teams. -/
def effTeams (df : List Record) (fs : FilterSelection) : List String :=
  if fs.teams = [] then allTeams df else fs.teams

/-- Lines 91-94: `df[(df.positionName.isin(sel_pos)) & (df.teamName.isin(sel_teams))]`.
A pandas boolean-mask selection keeps exactly the rows whose mask is true, in
their original order, which is `List.filter`. -/
def filteredByPosTeam (df : List Record) (fs : FilterSelection) : List Record :=
  df.filter (fun r =>
    decide (r.positionName ∈ effPositions df fs) && decide (r.teamName ∈ effTeams df fs))

/-- Lines 107-108: the player filter is applied on top only when the player
selection is non-empty. -/
def filteredDf (df : List Record) (fs : FilterSelection) : List Record :=
  if fs.players = [] then filteredByPosTeam df fs
  else (filteredByPosTeam df fs).filter (fun r => decide (r.playerName ∈ fs.players))

/-- Line 125: `filtered_df[selected_stats].sum(axis=1)` — the row-wise sum of
the selected statistic columns, in selection order. -/
def efforts (r : Record) (sel : List Stat) : ℤ :=
  (sel.map r.stat).sum

/-- Changing a column that is not selected leaves `efforts` unchanged. -/
theorem efforts_setStat_not_mem (r : Record) (sel : List Stat) (s : Stat)
    (hs : s ∉ sel) (v : ℤ) : efforts (setStat r s v) sel = efforts r sel := by
  unfold efforts
  congr 1
  refine List.map_congr_left (fun a ha => ?_)
  have hne : a ≠ s := fun h => hs (h ▸ ha)
  cases s <;> cases a <;> simp_all [setStat, Record.stat]

/-- C1: for every record of the filtered subset and every non-empty,
duplicate-free metric selection, the derived `efforts` value is the sum of the
record's values over exactly the selected columns (as a finite set of
columns), and a metric column that is not selected contributes nothing:
overwriting it with any value leaves `efforts` unchanged. -/
theorem c1_efforts_selected_sum (df : List Record) (fs : FilterSelection)
    (sel : List Stat) (r : Record) (hr : r ∈ filteredDf df fs)
    (hsel : sel ≠ []) (hnd : sel.Nodup) :
    efforts r sel = ∑ s ∈ sel.toFinset, r.stat s ∧
      ∀ s ∉ sel, ∀ v : ℤ, efforts (setStat r s v) sel = efforts r sel := by
  constructor
  · rw [List.sum_toFinset _ hnd]
    rfl
  · exact fun s hs v => efforts_setStat_not_mem r sel s hs v

/-- Sample record used by concrete witnesses. -/
def rAlice : Record :=
  { playerName := "Alice Smith", teamName := "Sydney Roosters",
    positionName := "Hooker", roundNumber := 1, mins := 80,
    runs := 5, kickPressures := 1, kicksDefused := 0, supports := 2,
    decoys := 0, tackles := 10 }

/-- Witness for C1 at a concrete filtered record and selection. -/
theorem c1_efforts_selected_sum_witness :
    (rAlice ∈ filteredDf [rAlice] ⟨[], [], []⟩ ∧
      ([Stat.runs, Stat.tackles] : List Stat) ≠ [] ∧
      ([Stat.runs, Stat.tackles] : List Stat).Nodup) ∧
    (efforts rAlice [Stat.runs, Stat.tackles] =
        ∑ s ∈ ([Stat.runs, Stat.tackles] : List Stat).toFinset, rAlice.stat s ∧
      ∀ s ∉ ([Stat.runs, Stat.tackles] : List Stat), ∀ v : ℤ,
        efforts (setStat rAlice s v) [Stat.runs, Stat.tackles] =
          efforts rAlice [Stat.runs, Stat.tackles]) := by
  have h1 : rAlice ∈ filteredDf [rAlice] ⟨[], [], []⟩ := by decide
  have h2 : ([Stat.runs, Stat.tackles] : List Stat) ≠ [] := by decide
  have h3 : ([Stat.runs, Stat.tackles] : List Stat).Nodup := by decide
  exact ⟨⟨h1, h2, h3⟩,
    c1_efforts_selected_sum [rAlice] ⟨[], [], []⟩ [Stat.runs, Stat.tackles] rAlice h1 h2 h3⟩

/-- Grouping key of the season aggregation (app.py line 128):
`groupby(['playerName', 'teamName', 'positionName'])`. -/
structure Key where
  playerName : String
  teamName : String
  positionName : String
deriving DecidableEq

/-- The grouping key of a row. -/
def Record.key (r : Record) : Key :=
  ⟨r.playerName, r.teamName, r.positionName⟩

/-- Value of a float cell produced by pandas arithmetic over exact inputs.
Pandas does not raise on division by zero: elementwise float division yields
NaN for 0/0 and a signed infinity for x/0 with x ≠ 0. -/
inductive PdVal
  | fin (q : ℚ)
  | posInf
  | negInf
  | nan
deriving DecidableEq

/-- Float division as performed by `Series.__truediv__` on exact numeric
data: ordinary division when the denominator is non-zero, otherwise the
NaN / signed-infinity results described at `PdVal`. -/
def pdDiv (a b : ℤ) : PdVal :=
  if b ≠ 0 then .fin ((a : ℚ) / (b : ℚ))
  else if a = 0 then .nan
  else if 0 < a then .posInf
  else .negInf

/-- One row of `player_season_stats` (app.py lines 128-136) after the
rename and the `efforts_per_min` column have been added. -/
structure SeasonRow where
  playerName : String
  teamName : String
  positionName : String
  totalMins : ℤ
  efforts : ℤ
  gamesPlayed : Nat
  effortsPerMin : PdVal
deriving DecidableEq

/-- The grouping key of an aggregated row. -/
def SeasonRow.key (row : SeasonRow) : Key :=
  ⟨row.playerName, row.teamName, row.positionName⟩

/-- The rows of a dataframe that fall into the group of key `k`. -/
def groupRows (df : List Record) (k : Key) : List Record :=
  df.filter (fun r => decide (r.key = k))

/-- The aggregated row for one group (app.py lines 128-136): `'mins': 'sum'`
becomes `totalMins`, `'efforts': 'sum'` stays `efforts`, `'roundNumber':
'count'` becomes `gamesPlayed` (every row has a round number, so `count` is
the group size), and line 136 divides the two sums. -/
def seasonRow (df : List Record) (sel : List Stat) (k : Key) : SeasonRow :=
  let g := groupRows df k
  let tm := (g.map Record.mins).sum
  let ef := (g.map (fun r => efforts r sel)).sum
  { playerName := k.playerName, teamName := k.teamName,
    positionName := k.positionName, totalMins := tm, efforts := ef,
    gamesPlayed := g.length, effortsPerMin := pdDiv ef tm }

/-- The full `player_season_stats` table: one aggregated row per distinct
grouping key occurring in the input.  Pandas emits the groups in sorted key
order; `dedup` gives them in a different order, which is irrelevant to every
property proved here (all are per-row or membership statements, and the
leaderboard sort below is modelled relationally). -/
def playerSeasonStats (df : List Record) (sel : List Stat) : List SeasonRow :=
  ((df.map Record.key).dedup).map (seasonRow df sel)

/-- Every aggregated row is the aggregate of its own key's group. -/
theorem mem_playerSeasonStats {df : List Record} {sel : List Stat}
    {row : SeasonRow} (h : row ∈ playerSeasonStats df sel) :
    row = seasonRow df sel row.key := by
  unfold playerSeasonStats at h
  obtain ⟨k, _, rfl⟩ := List.mem_map.mp h
  rfl

/-- C2: the season aggregation groups by (playerName, teamName, positionName)
— the aggregated keys are exactly the distinct keys of the input — and each
aggregated row carries the sum of its group's `mins`, the sum of its group's
per-record `efforts`, the group's row count as `gamesPlayed`, and, whenever
`totalMins` is non-zero, `efforts_per_min` = `efforts / totalMins`. -/
theorem c2_season_aggregation (df : List Record) (sel : List Stat)
    (hsel : sel ≠ []) :
    (playerSeasonStats df sel).map SeasonRow.key = (df.map Record.key).dedup ∧
    ∀ row ∈ playerSeasonStats df sel,
      row.totalMins = ((groupRows df row.key).map Record.mins).sum ∧
      row.efforts = ((groupRows df row.key).map (fun r => efforts r sel)).sum ∧
      row.gamesPlayed = (groupRows df row.key).length ∧
      (row.totalMins ≠ 0 →
        row.effortsPerMin = PdVal.fin ((row.efforts : ℚ) / (row.totalMins : ℚ))) := by
  constructor
  · unfold playerSeasonStats
    rw [List.map_map]
    have : SeasonRow.key ∘ seasonRow df sel = id := by
      funext k
      rfl
    rw [this, List.map_id]
  · intro row hrow
    have hk := mem_playerSeasonStats hrow
    have hkey : (seasonRow df sel row.key).key = row.key := rfl
    rw [hk]
    refine ⟨rfl, rfl, rfl, fun htm => ?_⟩
    have : (seasonRow df sel row.key).effortsPerMin =
        pdDiv (seasonRow df sel row.key).efforts
          (seasonRow df sel row.key).totalMins := rfl
    rw [this, pdDiv, if_pos]
    rw [← hk] at htm ⊢
    exact htm

/-- Second sample record: a second round of the same player, matching the
spec scenario (mins 80 and 70, runs 5 and 3). -/
def rAlice2 : Record :=
  { playerName := "Alice Smith", teamName := "Sydney Roosters",
    positionName := "Hooker", roundNumber := 2, mins := 70,
    runs := 3, kickPressures := 0, kicksDefused := 1, supports := 0,
    decoys := 3, tackles := 7 }

/-- Witness for C2 on the spec's own scenario: two rounds of one player,
metric set = runs; the aggregate row has totalMins 150, efforts 8,
gamesPlayed 2, efforts_per_min 8/150. -/
theorem c2_season_aggregation_witness :
    (([Stat.runs] : List Stat) ≠ [] ∧
      (playerSeasonStats [rAlice, rAlice2] [Stat.runs]).map SeasonRow.key =
        (([rAlice, rAlice2] : List Record).map Record.key).dedup) ∧
    ∀ row ∈ playerSeasonStats [rAlice, rAlice2] [Stat.runs],
      row.totalMins = ((groupRows [rAlice, rAlice2] row.key).map Record.mins).sum ∧
      row.efforts =
        ((groupRows [rAlice, rAlice2] row.key).map (fun r => efforts r [Stat.runs])).sum ∧
      row.gamesPlayed = (groupRows [rAlice, rAlice2] row.key).length ∧
      (row.totalMins ≠ 0 →
        row.effortsPerMin = PdVal.fin ((row.efforts : ℚ) / (row.totalMins : ℚ))) := by
  have h1 : ([Stat.runs] : List Stat) ≠ [] := by decide
  have h := c2_season_aggregation [rAlice, rAlice2] [Stat.runs] h1
  exact ⟨⟨h1, h.1⟩, h.2⟩

/-- Concrete check that the scenario numbers themselves come out as the spec
says (totalMins 150, efforts 8, gamesPlayed 2, ratio 8/150). -/
theorem season_scenario_values :
    (playerSeasonStats [rAlice, rAlice2] [Stat.runs]).map
        (fun row => (row.totalMins, row.efforts, row.gamesPlayed, row.effortsPerMin)) =
      [(150, 8, 2, pdDiv 8 150)] := by
  rfl

/-- A row of the dataframe has its own position among the position options. -/
theorem mem_allPositions {df : List Record} {r : Record} (h : r ∈ df) :
    r.positionName ∈ allPositions df := by
  unfold allPositions
  rw [List.mem_dedup]
  exact List.mem_map_of_mem _ h

/-- A row of the dataframe has its own team among the team options. -/
theorem mem_allTeams {df : List Record} {r : Record} (h : r ∈ df) :
    r.teamName ∈ allTeams df := by
  unfold allTeams
  rw [List.mem_dedup]
  exact List.mem_map_of_mem _ h

/-- Membership characterisation of the position/team stage of the filter. -/
theorem mem_filteredByPosTeam (df : List Record) (fs : FilterSelection)
    (r : Record) :
    r ∈ filteredByPosTeam df fs ↔
      r ∈ df ∧ (fs.positions = [] ∨ r.positionName ∈ fs.positions) ∧
        (fs.teams = [] ∨ r.teamName ∈ fs.teams) := by
  unfold filteredByPosTeam
  rw [List.mem_filter]
  simp only [Bool.and_eq_true, decide_eq_true_eq]
  constructor
  · rintro ⟨hmem, hpos, hteam⟩
    refine ⟨hmem, ?_, ?_⟩
    · by_cases hp : fs.positions = []
      · exact Or.inl hp
      · rw [effPositions, if_neg hp] at hpos
        exact Or.inr hpos
    · by_cases ht : fs.teams = []
      · exact Or.inl ht
      · rw [effTeams, if_neg ht] at hteam
        exact Or.inr hteam
  · rintro ⟨hmem, hpos, hteam⟩
    refine ⟨hmem, ?_, ?_⟩
    · by_cases hp : fs.positions = []
      · rw [effPositions, if_pos hp]
        exact mem_allPositions hmem
      · rw [effPositions, if_neg hp]
        exact hpos.resolve_left hp
    · by_cases ht : fs.teams = []
      · rw [effTeams, if_pos ht]
        exact mem_allTeams hmem
      · rw [effTeams, if_neg ht]
        exact hteam.resolve_left ht

/-- C3: a record is in the filter output iff it is a record of the input
whose position is selected (or the position selection is empty), whose team
is selected (or the team selection is empty), and, when players are selected,
whose player name is selected; and when all three selections are empty the
output is the input dataframe itself, unchanged in row count and content. -/
theorem c3_filter_semantics (df : List Record) (fs : FilterSelection) :
    (∀ r, r ∈ filteredDf df fs ↔
        r ∈ df ∧ (fs.positions = [] ∨ r.positionName ∈ fs.positions) ∧
          (fs.teams = [] ∨ r.teamName ∈ fs.teams) ∧
          (fs.players = [] ∨ r.playerName ∈ fs.players)) ∧
    (fs.positions = [] → fs.teams = [] → fs.players = [] →
      filteredDf df fs = df) := by
  constructor
  · intro r
    unfold filteredDf
    by_cases hpl : fs.players = []
    · rw [if_pos hpl, mem_filteredByPosTeam]
      simp [hpl, and_assoc]
    · rw [if_neg hpl, List.mem_filter, mem_filteredByPosTeam]
      simp only [decide_eq_true_eq]
      constructor
      · rintro ⟨⟨hmem, hpos, hteam⟩, hplay⟩
        exact ⟨hmem, hpos, hteam, Or.inr hplay⟩
      · rintro ⟨hmem, hpos, hteam, hplay⟩
        exact ⟨⟨hmem, hpos, hteam⟩, hplay.resolve_left hpl⟩
  · intro hp ht hpl
    unfold filteredDf
    rw [if_pos hpl]
    unfold filteredByPosTeam
    rw [List.filter_eq_self]
    intro r hr
    simp only [Bool.and_eq_true, decide_eq_true_eq]
    rw [effPositions, if_pos hp, effTeams, if_pos ht]
    exact ⟨mem_allPositions hr, mem_allTeams hr⟩

/-- A second sample record with a different team and position, used to make
the filter witness non-trivial. -/
def rBob : Record :=
  { playerName := "Bob Jones", teamName := "Penrith Panthers",
    positionName := "Fullback", roundNumber := 1, mins := 60,
    runs := 9, kickPressures := 0, kicksDefused := 2, supports := 1,
    decoys := 1, tackles := 4 }

/-- Witness for C3: the membership characterisation evaluated on a concrete
team-only filter, and the identity on a concrete all-empty filter. -/
theorem c3_filter_semantics_witness :
    (rAlice ∈ filteredDf [rAlice, rBob] ⟨[], ["Sydney Roosters"], []⟩ ↔
      rAlice ∈ ([rAlice, rBob] : List Record) ∧
        (([] : List String) = [] ∨ rAlice.positionName ∈ ([] : List String)) ∧
        ((["Sydney Roosters"] : List String) = [] ∨
          rAlice.teamName ∈ (["Sydney Roosters"] : List String)) ∧
        (([] : List String) = [] ∨ rAlice.playerName ∈ ([] : List String))) ∧
    filteredDf [rAlice, rBob] ⟨[], [], []⟩ = [rAlice, rBob] := by
  refine ⟨(c3_filter_semantics [rAlice, rBob] ⟨[], ["Sydney Roosters"], []⟩).1 rAlice, ?_⟩
  exact (c3_filter_semantics [rAlice, rBob] ⟨[], [], []⟩).2 rfl rfl rfl

/-- Concrete check of the spec's team-filter scenario: filtering on the team
"Sydney Roosters" with everything else empty keeps exactly the Roosters rows. -/
theorem team_filter_scenario :
    filteredDf [rAlice, rBob] ⟨[], ["Sydney Roosters"], []⟩ = [rAlice] := by
  decide

/-- Every aggregated row's `efforts_per_min` cell is the float division of
its `efforts` sum by its `totalMins` sum (app.py line 136). -/
theorem effortsPerMin_eq {df : List Record} {sel : List Stat}
    {row : SeasonRow} (h : row ∈ playerSeasonStats df sel) :
    row.effortsPerMin = pdDiv row.efforts row.totalMins := by
  unfold playerSeasonStats at h
  obtain ⟨k, _, rfl⟩ := List.mem_map.mp h
  rfl

/-- Division by a non-zero denominator produces the finite exact ratio. -/
theorem pdDiv_of_ne_zero {a b : ℤ} (h : b ≠ 0) :
    pdDiv a b = PdVal.fin ((a : ℚ) / (b : ℚ)) := by
  rw [pdDiv, if_pos h]

/-- Relational model of `sort_values(col, ascending=False)` (app.py lines 236
and 269).  Pandas guarantees that the output is a permutation of the input
arranged in descending order of the sort column; the default sort kind,
`'quicksort'` (numpy introsort), gives no guarantee about the relative order
of rows whose sort keys are equal, so the embedding is the set of outputs the
call may produce: every key-descending permutation of the input. -/
def SortDescPerm (key : SeasonRow → ℚ) (input output : List SeasonRow) : Prop :=
  input.Perm output ∧ output.Pairwise (fun a b => key b ≤ key a)

/-- Sort key of the top-by-total leaderboard (line 236): the `efforts` sum. -/
def effortsKey (row : SeasonRow) : ℚ := (row.efforts : ℚ)

/-- Sort key of the efficiency leaderboard (line 269).  For every row the code
actually sorts there — rows that passed the `totalMins >= 80` filter — the
stored `efforts_per_min` float equals this exact rational. -/
def epmKey (row : SeasonRow) : ℚ := (row.efforts : ℚ) / (row.totalMins : ℚ)

/-- Line 268: `player_season_stats[player_season_stats['totalMins'] >= min_mins]`
with `min_mins = 80`. -/
def efficientPlayers (season : List SeasonRow) : List SeasonRow :=
  season.filter (fun row => decide (80 ≤ row.totalMins))

/-- Lines 236-240 and 269-273: `.head(10)`, `reset_index(drop=True)`, then
`index = index + 1` — the first ten rows of the sorted table paired with the
displayed ranks 1, 2, ... -/
def topTenRanked (sorted : List SeasonRow) : List (Nat × SeasonRow) :=
  ((sorted.take 10).enum).map (fun p => (p.1 + 1, p.2))

/-- The leaderboard rows are the first ten sorted rows. -/
theorem topTenRanked_snd (l : List SeasonRow) :
    (topTenRanked l).map Prod.snd = l.take 10 := by
  unfold topTenRanked
  rw [List.map_map]
  exact List.enum_map_snd (l.take 10)

/-- The leaderboard ranks are 1, 2, ..., length of the kept prefix. -/
theorem topTenRanked_fst (l : List SeasonRow) :
    (topTenRanked l).map Prod.fst = List.range' 1 (l.take 10).length := by
  unfold topTenRanked
  rw [List.map_map]
  show ((l.take 10).enum).map ((fun i => i + 1) ∘ Prod.fst) = _
  rw [← List.map_map, List.enum_map_fst, List.range'_eq_map_range]
  exact List.map_congr_left (fun a _ => Nat.add_comm a 1)

/-- The leaderboard never has more than ten rows. -/
theorem topTenRanked_length_le (l : List SeasonRow) :
    (topTenRanked l).length ≤ 10 := by
  unfold topTenRanked
  rw [List.length_map, List.enum_length, List.length_take]
  exact min_le_left _ _

/-- C4: every row of the top-by-efficiency leaderboard passed the
`totalMins >= 80` qualification (so no row with fewer minutes appears) and
carries the finite exact ratio as its `efforts_per_min`; the leaderboard is
ordered descending by that ratio with no inversions; and it has at most ten
rows. -/
theorem c4_efficiency_leaderboard (df : List Record) (fs : FilterSelection)
    (sel : List Stat) (out : List SeasonRow)
    (hsort : SortDescPerm epmKey
      (efficientPlayers (playerSeasonStats (filteredDf df fs) sel)) out) :
    (∀ p ∈ topTenRanked out, 80 ≤ p.2.totalMins ∧
        p.2.effortsPerMin = PdVal.fin (epmKey p.2)) ∧
    ((topTenRanked out).map Prod.snd).Pairwise (fun a b => epmKey b ≤ epmKey a) ∧
    (topTenRanked out).length ≤ 10 := by
  refine ⟨?_, ?_, topTenRanked_length_le out⟩
  · intro p hp
    have hsnd : p.2 ∈ (topTenRanked out).map Prod.snd :=
      List.mem_map_of_mem Prod.snd hp
    rw [topTenRanked_snd] at hsnd
    have hout : p.2 ∈ out := List.mem_of_mem_take hsnd
    have hin : p.2 ∈ efficientPlayers (playerSeasonStats (filteredDf df fs) sel) :=
      (hsort.1.mem_iff).mpr hout
    unfold efficientPlayers at hin
    rw [List.mem_filter] at hin
    obtain ⟨hseason, hmins⟩ := hin
    rw [decide_eq_true_eq] at hmins
    refine ⟨hmins, ?_⟩
    have hne : p.2.totalMins ≠ 0 := by
      intro h0
      rw [h0] at hmins
      norm_num at hmins
    rw [effortsPerMin_eq hseason, pdDiv_of_ne_zero hne]
    rfl
  · rw [topTenRanked_snd]
    exact List.Pairwise.sublist (List.take_sublist 10 out) hsort.2

/-- Witness for C4 on a one-player dataset whose aggregate (80 minutes)
qualifies. -/
theorem c4_efficiency_leaderboard_witness :
    SortDescPerm epmKey
      (efficientPlayers (playerSeasonStats (filteredDf [rAlice] ⟨[], [], []⟩) [Stat.runs]))
      (efficientPlayers (playerSeasonStats (filteredDf [rAlice] ⟨[], [], []⟩) [Stat.runs])) ∧
    ((∀ p ∈ topTenRanked
          (efficientPlayers (playerSeasonStats (filteredDf [rAlice] ⟨[], [], []⟩) [Stat.runs])),
        80 ≤ p.2.totalMins ∧ p.2.effortsPerMin = PdVal.fin (epmKey p.2)) ∧
      ((topTenRanked
          (efficientPlayers (playerSeasonStats (filteredDf [rAlice] ⟨[], [], []⟩) [Stat.runs]))).map
            Prod.snd).Pairwise (fun a b => epmKey b ≤ epmKey a) ∧
      (topTenRanked
          (efficientPlayers (playerSeasonStats (filteredDf [rAlice] ⟨[], [], []⟩) [Stat.runs]))).length ≤ 10) := by
  have hlist :
      efficientPlayers (playerSeasonStats (filteredDf [rAlice] ⟨[], [], []⟩) [Stat.runs]) =
        [seasonRow (filteredDf [rAlice] ⟨[], [], []⟩) [Stat.runs]
          ⟨"Alice Smith", "Sydney Roosters", "Hooker"⟩] := rfl
  have hsort : SortDescPerm epmKey
      (efficientPlayers (playerSeasonStats (filteredDf [rAlice] ⟨[], [], []⟩) [Stat.runs]))
      (efficientPlayers (playerSeasonStats (filteredDf [rAlice] ⟨[], [], []⟩) [Stat.runs])) := by
    refine ⟨List.Perm.refl _, ?_⟩
    rw [hlist]
    exact List.pairwise_singleton _ _
  exact ⟨hsort, c4_efficiency_leaderboard [rAlice] ⟨[], [], []⟩ [Stat.runs] _ hsort⟩

/-- Two aggregated rows that are tied on `efforts` (both 50) but belong to
different players; used to exhibit the tie-order behaviour of the sort. -/
def sTiedA : SeasonRow :=
  { playerName := "Alice Smith", teamName := "Sydney Roosters",
    positionName := "Hooker", totalMins := 100, efforts := 50,
    gamesPlayed := 2, effortsPerMin := pdDiv 50 100 }

/-- Companion of `sTiedA`: same `efforts` total, different player. -/
def sTiedB : SeasonRow :=
  { playerName := "Bob Jones", teamName := "Penrith Panthers",
    positionName := "Fullback", totalMins := 90, efforts := 50,
    gamesPlayed := 3, effortsPerMin := pdDiv 50 90 }

/-- C5 counterexample: `sort_values('efforts', ascending=False)` with its
default `'quicksort'` kind does not guarantee a stable order for tied rows.
On the two-row table [A, B] with equal `efforts`, the reversed table [B, A]
is an admissible output of the sort call (a permutation, descending in the
key), and the leaderboard built from it lists the tied rows in the opposite
of their original relative order — refuting the claimed stability. -/
theorem c5_stability_counterexample :
    SortDescPerm effortsKey [sTiedA, sTiedB] [sTiedB, sTiedA] ∧
    effortsKey sTiedA = effortsKey sTiedB ∧
    ([sTiedA, sTiedB].map SeasonRow.playerName = ["Alice Smith", "Bob Jones"]) ∧
    ((topTenRanked [sTiedB, sTiedA]).map Prod.snd).map SeasonRow.playerName =
      ["Bob Jones", "Alice Smith"] := by
  refine ⟨⟨List.Perm.swap sTiedB sTiedA [], ?_⟩, rfl, rfl, rfl⟩
  rw [List.pairwise_cons]
  refine ⟨fun b hb => ?_, List.pairwise_singleton _ _⟩
  rw [List.mem_singleton] at hb
  subst hb
  exact le_refl _

/-- C5 as amended: the top-by-total leaderboard is the first ten rows of a
descending-`efforts` permutation of the aggregate table, has no inversions,
never exceeds ten rows, and assigns ranks 1..n in sorted order; the relative
order of rows tied on `efforts` is not specified (the sort is pandas'
default, unstable quicksort). -/
theorem c5_top_total_leaderboard (season out : List SeasonRow)
    (hsort : SortDescPerm effortsKey season out) :
    (topTenRanked out).map Prod.snd = out.take 10 ∧
    ((topTenRanked out).map Prod.snd).Pairwise (fun a b => b.efforts ≤ a.efforts) ∧
    (topTenRanked out).length ≤ 10 ∧
    (topTenRanked out).map Prod.fst = List.range' 1 (topTenRanked out).length := by
  refine ⟨topTenRanked_snd out, ?_, topTenRanked_length_le out, ?_⟩
  · rw [topTenRanked_snd]
    have hp : (out.take 10).Pairwise (fun a b => effortsKey b ≤ effortsKey a) :=
      List.Pairwise.sublist (List.take_sublist 10 out) hsort.2
    refine hp.imp (fun hab => ?_)
    unfold effortsKey at hab
    exact_mod_cast hab
  · rw [topTenRanked_fst]
    congr 1
    unfold topTenRanked
    rw [List.length_map, List.enum_length]

/-- Witness for C5 (amended) on a concrete one-row table. -/
theorem c5_top_total_leaderboard_witness :
    SortDescPerm effortsKey [sTiedA] [sTiedA] ∧
    ((topTenRanked [sTiedA]).map Prod.snd = [sTiedA].take 10 ∧
      ((topTenRanked [sTiedA]).map Prod.snd).Pairwise (fun a b => b.efforts ≤ a.efforts) ∧
      (topTenRanked [sTiedA]).length ≤ 10 ∧
      (topTenRanked [sTiedA]).map Prod.fst = List.range' 1 (topTenRanked [sTiedA]).length) := by
  have hsort : SortDescPerm effortsKey [sTiedA] [sTiedA] :=
    ⟨List.Perm.refl _, List.pairwise_singleton _ _⟩
  exact ⟨hsort, c5_top_total_leaderboard [sTiedA] [sTiedA] hsort⟩

/-- C10: when fewer than ten rows reach a leaderboard — the whole aggregate
table for top-by-total, the `totalMins >= 80` survivors for
top-by-efficiency — the leaderboard holds exactly those n rows (as a
permutation; no padding, no emptiness, no error) ranked 1..n. -/
theorem c10_short_leaderboards (season outT outE : List SeasonRow)
    (hT : SortDescPerm effortsKey season outT)
    (hE : SortDescPerm epmKey (efficientPlayers season) outE)
    (hlenT : season.length < 10)
    (hlenE : (efficientPlayers season).length < 10) :
    ((topTenRanked outT).map Prod.snd).Perm season ∧
    (topTenRanked outT).map Prod.fst = List.range' 1 season.length ∧
    ((topTenRanked outE).map Prod.snd).Perm (efficientPlayers season) ∧
    (topTenRanked outE).map Prod.fst = List.range' 1 (efficientPlayers season).length := by
  have hlT : outT.length = season.length := (hT.1.length_eq).symm
  have hlE : outE.length = (efficientPlayers season).length := (hE.1.length_eq).symm
  have htakeT : outT.take 10 = outT :=
    List.take_of_length_le (by rw [hlT]; exact Nat.le_of_lt hlenT)
  have htakeE : outE.take 10 = outE :=
    List.take_of_length_le (by rw [hlE]; exact Nat.le_of_lt hlenE)
  refine ⟨?_, ?_, ?_, ?_⟩
  · rw [topTenRanked_snd, htakeT]
    exact hT.1.symm
  · rw [topTenRanked_fst, htakeT, hlT]
  · rw [topTenRanked_snd, htakeE]
    exact hE.1.symm
  · rw [topTenRanked_fst, htakeE, hlE]

/-- Witness for C10 on a concrete one-row table (one qualifying row). -/
theorem c10_short_leaderboards_witness :
    (SortDescPerm effortsKey [sTiedB] [sTiedB] ∧
      SortDescPerm epmKey (efficientPlayers [sTiedB]) [sTiedB] ∧
      ([sTiedB] : List SeasonRow).length < 10 ∧
      (efficientPlayers [sTiedB]).length < 10) ∧
    (((topTenRanked [sTiedB]).map Prod.snd).Perm [sTiedB] ∧
      (topTenRanked [sTiedB]).map Prod.fst = List.range' 1 ([sTiedB] : List SeasonRow).length ∧
      ((topTenRanked [sTiedB]).map Prod.snd).Perm (efficientPlayers [sTiedB]) ∧
      (topTenRanked [sTiedB]).map Prod.fst =
        List.range' 1 (efficientPlayers [sTiedB]).length) := by
  have hT : SortDescPerm effortsKey [sTiedB] [sTiedB] :=
    ⟨List.Perm.refl _, List.pairwise_singleton _ _⟩
  have hfix : efficientPlayers [sTiedB] = [sTiedB] := rfl
  have hE : SortDescPerm epmKey (efficientPlayers [sTiedB]) [sTiedB] := by
    rw [hfix]
    exact ⟨List.Perm.refl _, List.pairwise_singleton _ _⟩
  have h3 : ([sTiedB] : List SeasonRow).length < 10 := by decide
  have h4 : (efficientPlayers [sTiedB]).length < 10 := by rw [hfix]; decide
  exact ⟨⟨hT, hE, h3, h4⟩, c10_short_leaderboards [sTiedB] [sTiedB] [sTiedB] hT hE h3 h4⟩

/-- A record with zero minutes played, used to exercise the zero-minutes
division path of line 136. -/
def rZero : Record :=
  { playerName := "Zero Mins", teamName := "Sydney Roosters",
    positionName := "Bench", roundNumber := 1, mins := 0,
    runs := 5, kickPressures := 0, kicksDefused := 0, supports := 0,
    decoys := 0, tackles := 0 }

/-- C6 counterexample: a player whose only appearance has `mins = 0` and
`runs = 5`, with metric set {runs}, yields a season row with `totalMins = 0`,
`efforts = 5` and `efforts_per_min` = +infinity — the unguarded float
division of line 136 flags the row as infinite, not as missing/NaN. -/
theorem c6_zero_minutes_counterexample :
    (playerSeasonStats [rZero] [Stat.runs]).map
        (fun row => (row.totalMins, row.efforts, row.effortsPerMin)) =
      [(0, 5, PdVal.posInf)] ∧
    PdVal.posInf ≠ PdVal.nan := by
  exact ⟨rfl, by decide⟩

/-- C6 as amended: the computation of `efforts_per_min` over the full
aggregated dataset does not crash on a zero-minutes player, but it is not
guarded either: the row is flagged NaN only when `efforts` is also zero and
is otherwise flagged with a signed infinity; such rows never reach the
efficiency leaderboard because they fail its `totalMins >= 80` filter. -/
theorem c6_zero_minutes_division (df : List Record) (sel : List Stat)
    (row : SeasonRow) (hrow : row ∈ playerSeasonStats df sel)
    (h0 : row.totalMins = 0) :
    (row.effortsPerMin =
      if row.efforts = 0 then PdVal.nan
      else if 0 < row.efforts then PdVal.posInf else PdVal.negInf) ∧
    row ∉ efficientPlayers (playerSeasonStats df sel) := by
  constructor
  · rw [effortsPerMin_eq hrow, h0, pdDiv, if_neg (by norm_num)]
  · intro hmem
    unfold efficientPlayers at hmem
    rw [List.mem_filter, decide_eq_true_eq] at hmem
    rw [h0] at hmem
    norm_num at hmem

/-- The aggregated row of the zero-minutes player. -/
def sZero : SeasonRow :=
  seasonRow [rZero] [Stat.runs] ⟨"Zero Mins", "Sydney Roosters", "Bench"⟩

/-- Witness for C6 (amended) at the concrete zero-minutes aggregate. -/
theorem c6_zero_minutes_division_witness :
    (sZero ∈ playerSeasonStats [rZero] [Stat.runs] ∧ sZero.totalMins = 0) ∧
    ((sZero.effortsPerMin =
        if sZero.efforts = 0 then PdVal.nan
        else if 0 < sZero.efforts then PdVal.posInf else PdVal.negInf) ∧
      sZero ∉ efficientPlayers (playerSeasonStats [rZero] [Stat.runs])) := by
  have hmem : sZero ∈ playerSeasonStats [rZero] [Stat.runs] :=
    List.mem_singleton.mpr rfl
  have h0 : sZero.totalMins = 0 := rfl
  exact ⟨⟨hmem, h0⟩, c6_zero_minutes_division [rZero] [Stat.runs] sZero hmem h0⟩

/-- Outcome of one interactive evaluation of the main content area
(app.py lines 121-139): either the warning branch of line 122, with nothing
computed, or the computed per-round efforts table and season aggregate from
which every chart and leaderboard of the page is drawn. -/
inductive PipelineResult where
  | warning
  | output (rounds : List (Record × ℤ)) (season : List SeasonRow)

/-- The `if not selected_stats: st.warning(...) else: ...` dispatch of
app.py lines 121-123: with an empty metric selection only the warning is
shown; otherwise lines 125-136 compute `efforts` per filtered row and the
season aggregate. -/
def runPipeline (df : List Record) (fs : FilterSelection) (sel : List Stat) :
    PipelineResult :=
  if sel = [] then .warning
  else .output ((filteredDf df fs).map (fun r => (r, efforts r sel)))
    (playerSeasonStats (filteredDf df fs) sel)

/-- C7: for every dataset and filter selection, an empty metric selection
short-circuits the pipeline to the warning state, which carries no efforts
table, no aggregate, and hence no leaderboard or chart data — regardless of
the dataset. -/
theorem c7_empty_metrics_short_circuit (df : List Record) (fs : FilterSelection) :
    runPipeline df fs [] = PipelineResult.warning := by
  rfl

/-- A raw CSV row before the team-name column is added (app.py line 20):
`teamId` is still an integer code. -/
structure RawRecord where
  playerName : String
  teamId : Int
  positionName : String
  roundNumber : Int
  mins : ℤ
  runs : ℤ
  kickPressures : ℤ
  kicksDefused : ℤ
  supports : ℤ
  decoys : ℤ
  tackles : ℤ
deriving DecidableEq

/-- The 17-entry `team_name_mapping` dictionary of app.py lines 23-41.
`Series.map` with a dict leaves ids that are not keys as NaN, modelled as
`none`. -/
def teamNameMapping (tid : Int) : Option String :=
  match tid with
  | 500011 => some "Brisbane Broncos"
  | 500013 => some "Canberra Raiders"
  | 500010 => some "Canterbury-Bankstown Bulldogs"
  | 500028 => some "Cronulla-Sutherland Sharks"
  | 500004 => some "Gold Coast Titans"
  | 500002 => some "Manly-Warringah Sea Eagles"
  | 500021 => some "Melbourne Storm"
  | 500003 => some "Newcastle Knights"
  | 500032 => some "New Zealand Warriors"
  | 500012 => some "North Queensland Cowboys"
  | 500031 => some "Parramatta Eels"
  | 500014 => some "Penrith Panthers"
  | 500005 => some "South Sydney Rabbitohs"
  | 500022 => some "St George Illawarra Dragons"
  | 500001 => some "Sydney Roosters"
  | 500023 => some "Wests Tigers"
  | 500723 => some "The Dolphins"
  | _ => none

/-- The `teamName` column added by app.py line 44:
`df['teamName'] = df['teamId'].map(team_name_mapping)`.  An unmapped id
produces a NaN cell (`none`); the row itself stays in the dataframe. -/
def teamColumn (df : List RawRecord) : List (Option String) :=
  df.map (fun r => teamNameMapping r.teamId)

/-- Errors Python can raise while the sidebar options are built. -/
inductive PyError where
  | typeError
deriving DecidableEq

/-- App.py line 77: `all_teams = sorted(df['teamName'].unique())`.
`unique` keeps one copy of each value, NaN included.  Python's `sorted`
then compares the values pairwise; comparing the float NaN left by an
unmapped id with a `str` team name raises
`TypeError: '<' not supported between instances of 'float' and 'str'`, and
whenever the unique list holds both a NaN and at least one string such a
comparison is unavoidable (every element of a 2+-element list is compared
with some other element).  Success returns the option list; Python sorts
it, which only affects display order and no property proved here. -/
def sortedTeamOptions (cells : List (Option String)) :
    Except PyError (List (Option String)) :=
  let u := cells.dedup
  if u.any (fun c => c.isNone) && u.any (fun c => c.isSome) then
    .error .typeError
  else
    .ok u

/-- A raw row whose `teamId` is one of the 17 mapped codes. -/
def rawMapped : RawRecord :=
  { playerName := "Alice Smith", teamId := 500001, positionName := "Hooker",
    roundNumber := 1, mins := 80, runs := 5, kickPressures := 1,
    kicksDefused := 0, supports := 2, decoys := 0, tackles := 10 }

/-- A raw row whose `teamId` is not in the mapping table. -/
def rawUnmapped : RawRecord :=
  { playerName := "New Guy", teamId := 999999, positionName := "Winger",
    roundNumber := 1, mins := 40, runs := 2, kickPressures := 0,
    kicksDefused := 0, supports := 0, decoys := 0, tackles := 3 }

/-- C8, evaluated at the failing input: on a dataset holding one mapped and
one unmapped `teamId`, the load itself tolerates the unmapped id (line 44
yields a null team name and keeps the row), but the sidebar's team-option
derivation of line 77 raises a TypeError, so the record does not remain
usable and filterable through the pipeline. -/
theorem c8_unmapped_team_crash :
    teamNameMapping rawUnmapped.teamId = none ∧
    teamColumn [rawMapped, rawUnmapped] = [some "Sydney Roosters", none] ∧
    sortedTeamOptions (teamColumn [rawMapped, rawUnmapped]) =
      Except.error PyError.typeError := by
  exact ⟨rfl, rfl, rfl⟩

/-- One token of a Python regular-expression pattern drawn from the fragment
with no special characters other than the dot: a literal character, or the
dot, which matches any single character. -/
inductive RegexToken where
  | dot
  | lit (c : Char)
deriving DecidableEq

/-- Tokenised form of a search term.  `str.contains(term, case=False)`
(app.py lines 308 and 325) passes the term as a REGULAR EXPRESSION —
`regex=True` is pandas' default — compiled with `re.IGNORECASE`.  This model
is faithful for every term whose characters are either ordinary or the dot;
all terms the theorems below are applied to lie in that fragment. -/
def patternTokens (s : String) : List RegexToken :=
  s.data.map (fun c => if c = '.' then RegexToken.dot else RegexToken.lit c)

/-- Whether one pattern token matches one character, under `re.IGNORECASE`.
The dot matches anything; a literal matches up to letter case. -/
def tokenMatches : RegexToken → Char → Bool
  | .dot, _ => true
  | .lit a, c => decide (a.toLower = c.toLower)

/-- Whether the token list matches a prefix of the character list. -/
def matchesHere : List RegexToken → List Char → Bool
  | [], _ => true
  | _ :: _, [] => false
  | t :: ts, c :: cs => tokenMatches t c && matchesHere ts cs

/-- Whether the token list matches at some position — `re.search` semantics,
which is what `str.contains` uses. -/
def matchesSomewhere (ts : List RegexToken) : List Char → Bool
  | [] => matchesHere ts []
  | c :: rest => matchesHere ts (c :: rest) || matchesSomewhere ts rest

/-- One cell of `Series.str.contains(term, case=False)`. -/
def pyContains (term name : String) : Bool :=
  matchesSomewhere (patternTokens term) name.data

/-- App.py lines 307-310: an empty search box (falsy string) leaves the
per-game table unfiltered; otherwise rows are kept iff `str.contains`
matches the player name — all matches, original order, no limit. -/
def searchRound (term : String) (rows : List Record) : List Record :=
  if term = "" then rows
  else rows.filter (fun r => pyContains term r.playerName)

/-- App.py lines 323-327: the same search over the season-total table. -/
def searchSeason (term : String) (rows : List SeasonRow) : List SeasonRow :=
  if term = "" then rows
  else rows.filter (fun r => pyContains term r.playerName)

/-- The semantics the claim asserts: case-insensitive LITERAL substring
matching, stated through the same matcher with every character literal. -/
def containsLiteralCI (term name : String) : Bool :=
  matchesSomewhere (term.data.map RegexToken.lit) name.data

/-- The search term consisting of a single dot. -/
def dotTerm : String := "."

/-- A record whose player name contains no dot. -/
def rJo : Record :=
  { playerName := "Jo", teamName := "Sydney Roosters",
    positionName := "Hooker", roundNumber := 3, mins := 20,
    runs := 1, kickPressures := 0, kicksDefused := 0, supports := 0,
    decoys := 0, tackles := 2 }

/-- C9 counterexample: the search is not literal substring matching.  The
term "." is kept by `str.contains` against the name "Jo" — the dot is a
regex wildcard — although "." is not a literal substring of "Jo", so the
search returns a record the claim says it must not return. -/
theorem c9_regex_counterexample :
    searchRound dotTerm [rJo] = [rJo] ∧
    containsLiteralCI dotTerm rJo.playerName = false := by
  exact ⟨rfl, rfl⟩

/-- Characters with special meaning in Python regular expressions
(braces written by code point). -/
def regexSpecials : List Char :=
  ['.', '^', '$', '*', '+', '?', Char.ofNat 123, Char.ofNat 125,
   '[', ']', '\\', '|', '(', ')']

/-- An empty pattern matches every string at position 0. -/
theorem matchesSomewhere_nil (cs : List Char) : matchesSomewhere [] cs = true := by
  cases cs <;> rfl

/-- C9 as amended: the free-text search interprets the term as a
case-insensitive regular expression, not a literal; for every term free of
regex metacharacters it returns exactly the records whose `playerName`
contains the term as a case-insensitive literal substring — all of them, in
their original order, with no ranking and no limit — on both the per-game
and the season collection. -/
theorem c9_search_semantics (term : String)
    (hterm : ∀ c ∈ term.data, c ∉ regexSpecials)
    (rows : List Record) (srows : List SeasonRow) :
    searchRound term rows =
      rows.filter (fun r => containsLiteralCI term r.playerName) ∧
    searchSeason term srows =
      srows.filter (fun r => containsLiteralCI term r.playerName) := by
  have htok : patternTokens term = term.data.map RegexToken.lit := by
    unfold patternTokens
    refine List.map_congr_left (fun c hc => ?_)
    have hdot : c ≠ '.' := by
      intro h
      exact hterm c hc (h ▸ List.mem_cons_self _ _)
    rw [if_neg hdot]
  have hpc : ∀ name, pyContains term name = containsLiteralCI term name := by
    intro name
    unfold pyContains containsLiteralCI
    rw [htok]
  by_cases hempty : term = ""
  · subst hempty
    have hlit : ∀ name : String, containsLiteralCI "" name = true := by
      intro name
      unfold containsLiteralCI
      exact matchesSomewhere_nil name.data
    constructor
    · rw [searchRound, if_pos rfl]
      exact (List.filter_eq_self.mpr (fun r _ => hlit r.playerName)).symm
    · rw [searchSeason, if_pos rfl]
      exact (List.filter_eq_self.mpr (fun r _ => hlit r.playerName)).symm
  · constructor
    · rw [searchRound, if_neg hempty]
      exact List.filter_congr (fun r _ => hpc r.playerName)
    · rw [searchSeason, if_neg hempty]
      exact List.filter_congr (fun r _ => hpc r.playerName)

/-- The spec's example search term. -/
def smithTerm : String := "smith"

/-- Record named "John Smith" (spec scenario). -/
def rJohnSmith : Record :=
  { playerName := "John Smith", teamName := "Penrith Panthers",
    positionName := "Lock", roundNumber := 1, mins := 55,
    runs := 4, kickPressures := 0, kicksDefused := 0, supports := 1,
    decoys := 0, tackles := 12 }

/-- Record named "Jon SMITH" (spec scenario). -/
def rJonSMITH : Record :=
  { playerName := "Jon SMITH", teamName := "Melbourne Storm",
    positionName := "Prop", roundNumber := 1, mins := 45,
    runs := 6, kickPressures := 0, kicksDefused := 0, supports := 0,
    decoys := 1, tackles := 9 }

/-- Witness for C9 (amended) on the spec's scenario: the metacharacter-free
term "smith" matched case-insensitively. -/
theorem c9_search_semantics_witness :
    (∀ c ∈ smithTerm.data, c ∉ regexSpecials) ∧
    (searchRound smithTerm [rJohnSmith, rJonSMITH, rBob] =
        ([rJohnSmith, rJonSMITH, rBob] : List Record).filter
          (fun r => containsLiteralCI smithTerm r.playerName) ∧
      searchSeason smithTerm [sTiedA] =
        ([sTiedA] : List SeasonRow).filter
          (fun r => containsLiteralCI smithTerm r.playerName)) := by
  have hterm : ∀ c ∈ smithTerm.data, c ∉ regexSpecials := by decide
  exact ⟨hterm, c9_search_semantics smithTerm hterm [rJohnSmith, rJonSMITH, rBob] [sTiedA]⟩

/-- Concrete check of the spec scenario: searching "smith" returns both
"John Smith" and "Jon SMITH" and drops "Bob Jones". -/
theorem smith_search_scenario :
    searchRound smithTerm [rJohnSmith, rJonSMITH, rBob] = [rJohnSmith, rJonSMITH] := by
  rfl

end EffortPlot
